import Mathlib

/-!
# Taichi IR statements (`taichi/ir/statements.h`)

A shallow embedding of the statement classes declared in
`taichi/ir/statements.h`, followed by theorems about their constructors and
query methods.

Conventions of the embedding:

* a C++ class becomes a structure with one field per data member, kept under
  the member's name; the only member of the base class `Stmt` that the code of
  this header reads or writes is `ret_type`, so every statement structure
  carries it as its first field;
* a pointer `T *` becomes `Ptr T` (an `Option`): `none` is the null pointer;
* `int`, `int32` and `int64` are signed two's-complement integers, modelled as
  an `Int` together with its range; `std::size_t` values are `Nat`s, reduced
  modulo `2 ^ SIZE_T_BITS` wherever the code does arithmetic on them;
* a constructor that can abort (a failed `TI_ASSERT`, a null dereference, an
  index past the end of a vector) returns `Except Failure _`;
* the instance-id counter and the field-manager bookkeeping done by
  `TI_STMT_REG_FIELDS` touch no data member declared in this header and are
  left out of the constructors.
-/

namespace Taichi

/-! ## Machine integers -/

/-- The C++ types `int` and `int32`: a signed 32-bit integer. -/
structure int32 where
  val : Int
  lo : -2147483648 ≤ val
  hi : val < 2147483648

/-- The C++ type `int64`: a signed 64-bit integer. -/
structure int64 where
  val : Int
  lo : -9223372036854775808 ≤ val
  hi : val < 9223372036854775808

instance : DecidableEq int32 := fun a b =>
  match a, b with
  | ⟨x, _, _⟩, ⟨y, _, _⟩ =>
    if h : x = y then isTrue (by subst h; rfl)
    else isFalse (fun e => h (congrArg int32.val e))

instance : DecidableEq int64 := fun a b =>
  match a, b with
  | ⟨x, _, _⟩, ⟨y, _, _⟩ =>
    if h : x = y then isTrue (by subst h; rfl)
    else isFalse (fun e => h (congrArg int64.val e))

/-- Number of value bits of `std::size_t` on the 64-bit targets Taichi builds for. -/
def SIZE_T_BITS : Nat := 64

/-- Conversion of a mathematical integer to `std::size_t` (reduction modulo `2 ^ 64`). -/
def to_size_t (x : Int) : Nat := (x % (2 ^ SIZE_T_BITS : Nat)).toNat

/-! ## Types declared outside this header -/

/-- A C++ pointer: `none` is `nullptr`. -/
abbrev Ptr (α : Type) : Type := Option α

/-- Modelled from the spec: the scalar element kinds of `enum class DataType`
(declared in `taichi/ir/ir.h`, outside this header): signed and unsigned
integers and floating-point numbers of the given widths, and the untyped
marker `unknown`. -/
inductive DataType
  | f32 | f64
  | i8 | i16 | i32 | i64
  | u8 | u16 | u32 | u64
  | unknown
deriving DecidableEq, Repr

/-- Modelled from the spec: `VectorType` (declared in `taichi/ir/ir.h`), a lane
count `width` and a scalar element kind `data_type`. -/
structure VectorType where
  width : Nat
  data_type : DataType
deriving DecidableEq

/-- Modelled from the spec: an `SNode` is an external description of one level
of the hierarchy; statements only hold references to it, so it is kept as an
identifier. -/
structure SNode where
  id : Nat
deriving DecidableEq, Repr

/-- Modelled from the spec: the target-device tag `Arch`, kept as its
enumerator's integer code. -/
structure Arch where
  code : Nat
deriving DecidableEq, Repr

/-- The dynamic class of a statement: the classes of this header, and `other`
for every statement class declared elsewhere. -/
inductive StmtKind
  | PragmaSLPStmt | ElementShuffleStmt | IntegerOffsetStmt | LinearizeStmt
  | OffsetAndExtractBitsStmt | GetRootStmt | SNodeLookupStmt | GetChStmt
  | OffloadedStmt | LoopIndexStmt | GlobalTemporaryStmt | InternalFuncStmt
  | StackAllocaStmt | StackLoadTopStmt | StackLoadTopAdjStmt | StackPopStmt
  | StackPushStmt | StackAccAdjointStmt
  | other
deriving DecidableEq, Repr

/-- What a `Stmt *` operand gives access to: the pointee's dynamic class (tested
by `is<T>()`), its instance id and its result type. -/
structure Stmt where
  kind : StmtKind
  id : Nat
  ret_type : VectorType
deriving DecidableEq

/-- Modelled from the spec: a `Block` is an ordered sequence of statements. -/
structure Block where
  statements : List Stmt
deriving DecidableEq

/-- One lane of a shuffle, `VectorElement`: a source statement and a lane of it. -/
structure VectorElement where
  stmt : Ptr Stmt
  index : int32
deriving DecidableEq

/-- Ways in which constructing a statement aborts. -/
inductive Failure
  | assertion_failure
  | null_dereference
  | index_out_of_bounds
deriving DecidableEq, Repr

/-! ## Hierarchy-addressing statements -/

/-- Class `ElementShuffleStmt`. -/
structure ElementShuffleStmt where
  ret_type : VectorType
  elements : List VectorElement
  pointer : Bool
deriving DecidableEq

/-- Method `ElementShuffleStmt::has_global_side_effect`. -/
def ElementShuffleStmt.has_global_side_effect (_s : ElementShuffleStmt) : Bool :=
  false

/-- Class `IntegerOffsetStmt`. -/
structure IntegerOffsetStmt where
  ret_type : VectorType
  input : Ptr Stmt
  offset : int64
deriving DecidableEq

/-- Method `IntegerOffsetStmt::has_global_side_effect`. -/
def IntegerOffsetStmt.has_global_side_effect (_s : IntegerOffsetStmt) : Bool :=
  false

/-- Class `LinearizeStmt`. -/
structure LinearizeStmt where
  ret_type : VectorType
  inputs : List (Ptr Stmt)
  strides : List int32
deriving DecidableEq

/-- Method `LinearizeStmt::has_global_side_effect`. -/
def LinearizeStmt.has_global_side_effect (_s : LinearizeStmt) : Bool :=
  false

/-- Class `OffsetAndExtractBitsStmt`. -/
structure OffsetAndExtractBitsStmt where
  ret_type : VectorType
  input : Ptr Stmt
  bit_begin : int32
  bit_end : int32
  offset : int64
  simplified : Bool
deriving DecidableEq

/-- Method `OffsetAndExtractBitsStmt::has_global_side_effect`. -/
def OffsetAndExtractBitsStmt.has_global_side_effect (_s : OffsetAndExtractBitsStmt) : Bool :=
  false

/-- Class `GetRootStmt`. -/
structure GetRootStmt where
  ret_type : VectorType
deriving DecidableEq

/-- Method `GetRootStmt::has_global_side_effect`. -/
def GetRootStmt.has_global_side_effect (_s : GetRootStmt) : Bool :=
  false

/-- Class `SNodeLookupStmt`. -/
structure SNodeLookupStmt where
  ret_type : VectorType
  snode : Ptr SNode
  input_snode : Ptr Stmt
  input_index : Ptr Stmt
  global_indices : List (Ptr Stmt)
  activate : Bool
deriving DecidableEq

/-- Method `SNodeLookupStmt::has_global_side_effect`. -/
def SNodeLookupStmt.has_global_side_effect (s : SNodeLookupStmt) : Bool :=
  s.activate

/-- Class `GetChStmt`. -/
structure GetChStmt where
  ret_type : VectorType
  input_ptr : Ptr Stmt
  input_snode : Ptr SNode
  output_snode : Ptr SNode
  chid : int32
deriving DecidableEq

/-- Method `GetChStmt::has_global_side_effect`. -/
def GetChStmt.has_global_side_effect (_s : GetChStmt) : Bool :=
  false

/-! ## Assertions and default result type -/

/-- Modelled from the spec: `TI_ASSERT(c)` (a macro defined outside this
header) lets construction go on when `c` holds and aborts it with an assertion
failure otherwise. -/
def TI_ASSERT (c : Bool) : Except Failure Unit :=
  if c then Except.ok () else Except.error Failure.assertion_failure

/-- Modelled from the spec: the result type of a statement to which no type has
been assigned yet (the base-class constructor of `Stmt`, outside this header,
sets it): one lane of the untyped marker. -/
def VectorType.untyped : VectorType :=
  { width := 1, data_type := DataType.unknown }

/-- Method `Stmt::is<T>()`: the statement's dynamic class is `T`. -/
def Stmt.is (s : Stmt) (k : StmtKind) : Bool :=
  s.kind == k

/-! ## Constructors of the hierarchy-addressing statements -/

/-- Constructor `LinearizeStmt::LinearizeStmt(inputs, strides)`. -/
def LinearizeStmt.new (inputs : List (Ptr Stmt)) (strides : List int32) :
    Except Failure LinearizeStmt := do
  let s : LinearizeStmt :=
    { ret_type := VectorType.untyped, inputs := inputs, strides := strides }
  TI_ASSERT (inputs.length == strides.length)
  pure s

/-- Value-preserving conversion of an `int` to `int64`. -/
def int32.to_int64 (x : int32) : int64 :=
  ⟨x.val, by have := x.lo; omega, by have := x.hi; omega⟩

/-- Constructor
`OffsetAndExtractBitsStmt::OffsetAndExtractBitsStmt(input, bit_begin, bit_end, offset)`;
the parameter `offset` is an `int`, the member it initialises an `int64`. -/
def OffsetAndExtractBitsStmt.new (input : Ptr Stmt) (bit_begin bit_end offset : int32) :
    OffsetAndExtractBitsStmt :=
  { ret_type := VectorType.untyped, input := input, bit_begin := bit_begin,
    bit_end := bit_end, offset := offset.to_int64, simplified := false }

/-- Constructor
`SNodeLookupStmt::SNodeLookupStmt(snode, input_snode, input_index, activate, global_indices)`. -/
def SNodeLookupStmt.new (snode : Ptr SNode) (input_snode input_index : Ptr Stmt)
    (activate : Bool) (global_indices : List (Ptr Stmt)) : SNodeLookupStmt :=
  { ret_type := VectorType.untyped, snode := snode, input_snode := input_snode,
    input_index := input_index, global_indices := global_indices,
    activate := activate }

/-- Names of the parameters of the constructor of `SNodeLookupStmt`, in order. -/
def SNodeLookupStmt.constructor_parameters : List String :=
  ["snode", "input_snode", "input_index", "activate", "global_indices"]

/-- The value of one entry of a statement's reflected field list. -/
inductive FieldValue
  | type (t : VectorType)
  | snode (p : Ptr SNode)
  | stmt (p : Ptr Stmt)
  | stmts (ps : List (Ptr Stmt))
  | bool (b : Bool)
deriving DecidableEq

/-- Modelled from the spec: `TI_STMT_DEF_FIELDS(f1, ..., fn)` (a macro defined
outside this header) declares the reflected field list of a statement, the
members `f1, ..., fn` in that order. This is the list declared in
`SNodeLookupStmt`, each entry with the member's name and value. -/
def SNodeLookupStmt.fields (s : SNodeLookupStmt) : List (String × FieldValue) :=
  [("ret_type", FieldValue.type s.ret_type),
   ("snode", FieldValue.snode s.snode),
   ("input_snode", FieldValue.stmt s.input_snode),
   ("input_index", FieldValue.stmt s.input_index),
   ("global_indices", FieldValue.stmts s.global_indices),
   ("activate", FieldValue.bool s.activate)]

/-! ## Offloaded tasks -/

/-- Enumeration `OffloadedStmt::TaskType`. -/
inductive TaskType
  | serial
  | range_for
  | struct_for
  | clear_list
  | listgen
  | gc
deriving DecidableEq, Repr

/-- Class `OffloadedStmt`. -/
structure OffloadedStmt where
  ret_type : VectorType
  task_type : TaskType
  snode : Ptr SNode
  begin_offset : Nat
  end_offset : Nat
  const_begin : Bool
  const_end : Bool
  begin_value : int32
  end_value : int32
  step : int32
  block_dim : int32
  reversed : Bool
  num_cpu_threads : int32
  device : Arch
  body : Ptr Block
deriving DecidableEq

/-- Method `OffloadedStmt::has_body`. -/
def OffloadedStmt.has_body (s : OffloadedStmt) : Bool :=
  s.task_type != TaskType.clear_list && s.task_type != TaskType.listgen &&
    s.task_type != TaskType.gc

/-- Method `OffloadedStmt::is_container_statement`. -/
def OffloadedStmt.is_container_statement (s : OffloadedStmt) : Bool :=
  s.has_body

/-! ## Differentiation-stack statements -/

/-- Modelled from the spec: `data_type_size` (declared outside this header), the
byte size of a scalar element kind, returned as an `int`: the kind's bit width
divided by 8. The untyped marker has no size and is given the sentinel `-1`;
no result below depends on that value. -/
def data_type_size : DataType → Int
  | DataType.f32 => 4
  | DataType.f64 => 8
  | DataType.i8 => 1
  | DataType.i16 => 2
  | DataType.i32 => 4
  | DataType.i64 => 8
  | DataType.u8 => 1
  | DataType.u16 => 2
  | DataType.u32 => 4
  | DataType.u64 => 8
  | DataType.unknown => -1

/-- Class `StackAllocaStmt`. -/
structure StackAllocaStmt where
  ret_type : VectorType
  dt : DataType
  max_size : Nat
deriving DecidableEq

/-- Constructor `StackAllocaStmt::StackAllocaStmt(dt, max_size)`. -/
def StackAllocaStmt.new (dt : DataType) (max_size : Nat) : StackAllocaStmt :=
  { ret_type := VectorType.untyped, dt := dt, max_size := max_size }

/-- Method `StackAllocaStmt::element_size_in_bytes`; `size` stands for the function
`data_type_size`, whose `int` result is converted to `std::size_t`. -/
def StackAllocaStmt.element_size_in_bytes (size : DataType → Int)
    (s : StackAllocaStmt) : Nat :=
  to_size_t (size s.ret_type.data_type)

/-- Method `StackAllocaStmt::entry_size_in_bytes`. -/
def StackAllocaStmt.entry_size_in_bytes (size : DataType → Int)
    (s : StackAllocaStmt) : Nat :=
  (s.element_size_in_bytes size * 2) % 2 ^ SIZE_T_BITS

/-- Method `StackAllocaStmt::size_in_bytes`; `sizeof(int32)` is 4. -/
def StackAllocaStmt.size_in_bytes (size : DataType → Int) (s : StackAllocaStmt) : Nat :=
  (4 + (s.entry_size_in_bytes size * s.max_size) % 2 ^ SIZE_T_BITS) % 2 ^ SIZE_T_BITS

/-- A `StackAllocaStmt` as a later type-assigning pass leaves it: element type
`f32` in both `dt` and the result type, capacity 16. -/
def typed_f32_stack : StackAllocaStmt :=
  { ret_type := { width := 1, data_type := DataType.f32 },
    dt := DataType.f32, max_size := 16 }

/-- Class `StackLoadTopStmt`. -/
structure StackLoadTopStmt where
  ret_type : VectorType
  stack : Ptr Stmt
deriving DecidableEq

/-- Class `StackLoadTopAdjStmt`. -/
structure StackLoadTopAdjStmt where
  ret_type : VectorType
  stack : Ptr Stmt
deriving DecidableEq

/-- Class `StackPopStmt`. -/
structure StackPopStmt where
  ret_type : VectorType
  stack : Ptr Stmt
deriving DecidableEq

/-- Class `StackPushStmt`. -/
structure StackPushStmt where
  ret_type : VectorType
  stack : Ptr Stmt
  v : Ptr Stmt
deriving DecidableEq

/-- Class `StackAccAdjointStmt`. -/
structure StackAccAdjointStmt where
  ret_type : VectorType
  stack : Ptr Stmt
  v : Ptr Stmt
deriving DecidableEq

/-- The test `stack->is<StackAllocaStmt>()` that opens every stack constructor:
dereferencing a null `stack` aborts, otherwise the assertion is checked. -/
def assert_is_stack_alloca (stack : Ptr Stmt) : Except Failure Unit :=
  match stack with
  | none => Except.error Failure.null_dereference
  | some s => TI_ASSERT (s.is StmtKind.StackAllocaStmt)

/-- Constructor `StackLoadTopStmt::StackLoadTopStmt(stack)`. -/
def StackLoadTopStmt.new (stack : Ptr Stmt) : Except Failure StackLoadTopStmt := do
  assert_is_stack_alloca stack
  pure { ret_type := VectorType.untyped, stack := stack }

/-- Constructor `StackLoadTopAdjStmt::StackLoadTopAdjStmt(stack)`. -/
def StackLoadTopAdjStmt.new (stack : Ptr Stmt) : Except Failure StackLoadTopAdjStmt := do
  assert_is_stack_alloca stack
  pure { ret_type := VectorType.untyped, stack := stack }

/-- Constructor `StackPopStmt::StackPopStmt(stack)`. -/
def StackPopStmt.new (stack : Ptr Stmt) : Except Failure StackPopStmt := do
  assert_is_stack_alloca stack
  pure { ret_type := VectorType.untyped, stack := stack }

/-- Constructor `StackPushStmt::StackPushStmt(stack, v)`. -/
def StackPushStmt.new (stack v : Ptr Stmt) : Except Failure StackPushStmt := do
  assert_is_stack_alloca stack
  pure { ret_type := VectorType.untyped, stack := stack, v := v }

/-- Constructor `StackAccAdjointStmt::StackAccAdjointStmt(stack, v)`. -/
def StackAccAdjointStmt.new (stack v : Ptr Stmt) : Except Failure StackAccAdjointStmt := do
  assert_is_stack_alloca stack
  pure { ret_type := VectorType.untyped, stack := stack, v := v }

/-! ## Integer conversions and further constructors -/

/-- Conversion of an integer value to `int`: reduction modulo `2 ^ 32` into the
signed range, as for any narrowing conversion to a two's-complement type. -/
def int32.of_int (x : Int) : int32 :=
  ⟨(x + 2147483648) % 4294967296 - 2147483648, by omega, by omega⟩

/-- Narrowing conversion of an `int64` to `int`, which a call passing an `int64`
for an `int` parameter applies to its argument. -/
def int64.to_int32 (x : int64) : int32 :=
  int32.of_int x.val

/-- Modelled from the spec: `Stmt::element_type()` (declared outside this
header), the scalar element kind of the statement's result type. -/
def Stmt.element_type (s : Stmt) : DataType :=
  s.ret_type.data_type

/-- Constructor `ElementShuffleStmt::ElementShuffleStmt(elements, pointer)`:
`width()` is the lane count of the result type; `elements[0]` is an indexing
that fails when there is no lane 0, and `->` a dereference that fails on a null
source statement. -/
def ElementShuffleStmt.new (elements : List VectorElement) (pointer : Bool) :
    Except Failure ElementShuffleStmt :=
  let width : Nat := elements.length
  match elements[0]? with
  | none => Except.error Failure.index_out_of_bounds
  | some e =>
    match e.stmt with
    | none => Except.error Failure.null_dereference
    | some src =>
      Except.ok { ret_type := { width := width, data_type := src.element_type },
                  elements := elements, pointer := pointer }

/-- The constructor of `ElementShuffleStmt` called without its second argument,
for which the declaration gives the default `pointer = false`. -/
def ElementShuffleStmt.new_default (elements : List VectorElement) :
    Except Failure ElementShuffleStmt :=
  ElementShuffleStmt.new elements false

/-- Constructor `IntegerOffsetStmt::IntegerOffsetStmt(input, offset)`. -/
def IntegerOffsetStmt.new (input : Ptr Stmt) (offset : int64) : IntegerOffsetStmt :=
  { ret_type := VectorType.untyped, input := input, offset := offset }

/-- Class `InternalFuncStmt`. -/
structure InternalFuncStmt where
  ret_type : VectorType
  func_name : String
deriving DecidableEq

/-- Constructor `InternalFuncStmt::InternalFuncStmt(func_name)`; the result type
is `VectorType(1, DataType::i32)`. -/
def InternalFuncStmt.new (func_name : String) : InternalFuncStmt :=
  { ret_type := { width := 1, data_type := DataType.i32 },
    func_name := func_name }

/-- The view of a `StackAllocaStmt` through a `Stmt *`: its dynamic class, the
instance id `id` it was created with, and its result type. -/
def StackAllocaStmt.as_stmt (s : StackAllocaStmt) (id : Nat) : Stmt :=
  { kind := StmtKind.StackAllocaStmt, id := id, ret_type := s.ret_type }

/-! ## Parts defined outside this header -/

/-- Modelled from the spec: the task kinds that are driven by the hierarchy and
require a non-null `snode`: `struct_for`, `clear_list`, `listgen` and `gc`. -/
def TaskType.requires_snode : TaskType → Bool
  | TaskType.struct_for => true
  | TaskType.clear_list => true
  | TaskType.listgen => true
  | TaskType.gc => true
  | TaskType.serial => false
  | TaskType.range_for => false

/-- Modelled from the spec: the constructor `OffloadedStmt(task_type, snode)`,
which this header declares and does not define. Construction fails when a kind
that requires an SNode is given a null `snode`; the statement owns a body block
exactly when its kind has a body. The spec does not fix the values of the
remaining members, which are taken from `init`. -/
def OffloadedStmt.new (init : OffloadedStmt) (task_type : TaskType) (snode : Ptr SNode) :
    Except Failure OffloadedStmt := do
  TI_ASSERT (!task_type.requires_snode || snode.isSome)
  let s : OffloadedStmt := { init with task_type := task_type, snode := snode }
  pure { s with body := if s.has_body then some { statements := [] } else none }

/-- Modelled from the spec: the constructor `OffloadedStmt(task_type)`, which
this header declares and does not define. It supplies no SNode: the statement is
built as by the two-argument constructor with a null `snode`. -/
def OffloadedStmt.new_without_snode (init : OffloadedStmt) (task_type : TaskType) :
    Except Failure OffloadedStmt :=
  OffloadedStmt.new init task_type none

/-- Modelled from the spec: the value denoted by a `LinearizeStmt`, which code
outside this header computes: the accumulation that starts from 0 and adds
`inputs[i] * strides[i]` for each dimension in turn. `value` gives the run-time
value of each input statement; values are mathematical integers. -/
def LinearizeStmt.denote (value : Ptr Stmt → Int) (s : LinearizeStmt) : Int :=
  (List.zip s.inputs s.strides).foldl (fun acc p => acc + value p.1 * p.2.val) 0

/-- Modelled from the spec: `mask(n)`, the integer whose `n` low bits are set
and whose other bits are clear. -/
def mask : Nat → Int
  | 0 => 0
  | n + 1 => 2 * mask n + 1

/-- Modelled from the spec: the value denoted by an `OffsetAndExtractBitsStmt`,
which code outside this header computes:
`((input + offset) >> bit_begin) & mask(bit_end - bit_begin)`, for the run-time
value `input` of the input statement; values are mathematical integers and the
shift is arithmetic. -/
def OffsetAndExtractBitsStmt.denote (input : Int) (s : OffsetAndExtractBitsStmt) : Int :=
  Int.land ((input + s.offset.val) >>> s.bit_begin.val.toNat)
    (mask (s.bit_end.val - s.bit_begin.val).toNat)

/-- Modelled from the spec: the run-time content of a differentiation stack,
which code outside this header maintains: its entries, pairs of a primal and an
adjoint value, the top entry first. -/
abbrev StackContent (α : Type) : Type := List (α × α)

/-- Modelled from the spec: the content of a freshly allocated stack, on which
no push has been recorded: no entry. -/
def StackContent.fresh {α : Type} : StackContent α := []

/-- Modelled from the spec: executing a `StackPushStmt` on the content of the
stack it refers to appends the entry `(value, adjoint = 0)`. The spec gives no
behaviour for a push beyond the capacity, which is not modelled. -/
def StackPushStmt.execute {α : Type} [Zero α] (value : α) (c : StackContent α) :
    StackContent α :=
  (value, 0) :: c

/-- Modelled from the spec: executing a `StackLoadTopStmt` on the content of the
stack it refers to returns the primal value of the top entry without popping,
and fails (a contract violation) if the stack is empty. -/
def StackLoadTopStmt.execute {α : Type} (c : StackContent α) : Except Failure α :=
  match c with
  | [] => Except.error Failure.assertion_failure
  | top :: _ => Except.ok top.1

/-- Modelled from the spec: executing a `StackPopStmt` on the content of the
stack it refers to removes the top entry, and fails (a contract violation) if
the stack is empty. -/
def StackPopStmt.execute {α : Type} (c : StackContent α) :
    Except Failure (StackContent α) :=
  match c with
  | [] => Except.error Failure.assertion_failure
  | _ :: rest => Except.ok rest

/-! ## Theorems -/

/-- C1: for every task kind and every value of the other fields of an
`OffloadedStmt`, `has_body()` is true if and only if the kind is `serial`,
`range_for` or `struct_for`. -/
theorem has_body_iff_serial_range_struct (s : OffloadedStmt) :
    s.has_body = true ↔
      (s.task_type = TaskType.serial ∨ s.task_type = TaskType.range_for ∨
        s.task_type = TaskType.struct_for) := by
  unfold OffloadedStmt.has_body
  cases s.task_type <;> decide

/-- C2: for every `SNodeLookupStmt`, `has_global_side_effect()` is true if and
only if its `activate` field is true, whatever `snode`, `input_snode`,
`input_index` and `global_indices` are. -/
theorem snode_lookup_side_effect_iff_activate (ret_type : VectorType)
    (snode : Ptr SNode) (input_snode input_index : Ptr Stmt)
    (global_indices : List (Ptr Stmt)) (activate : Bool) :
    (SNodeLookupStmt.mk ret_type snode input_snode input_index global_indices
        activate).has_global_side_effect = true ↔ activate = true := by
  simp [SNodeLookupStmt.has_global_side_effect]

/-- C3: every `GetRootStmt`, `GetChStmt`, `LinearizeStmt`,
`OffsetAndExtractBitsStmt`, `IntegerOffsetStmt` and `ElementShuffleStmt`,
whatever its field values, reports no global side effect. -/
theorem addressing_stmts_no_side_effect (r : GetRootStmt) (c : GetChStmt)
    (l : LinearizeStmt) (o : OffsetAndExtractBitsStmt) (i : IntegerOffsetStmt)
    (e : ElementShuffleStmt) :
    r.has_global_side_effect = false ∧ c.has_global_side_effect = false ∧
      l.has_global_side_effect = false ∧ o.has_global_side_effect = false ∧
      i.has_global_side_effect = false ∧ e.has_global_side_effect = false :=
  ⟨rfl, rfl, rfl, rfl, rfl, rfl⟩

/-- C4: constructing a `LinearizeStmt` fails with an assertion failure when the
lengths of `inputs` and `strides` differ, and succeeds exactly when they are
equal; the statement built then holds `inputs` and `strides` unchanged, in the
same order. -/
theorem linearize_new_checks_lengths (inputs : List (Ptr Stmt)) (strides : List int32) :
    LinearizeStmt.new inputs strides =
      if inputs.length = strides.length then
        Except.ok { ret_type := VectorType.untyped, inputs := inputs, strides := strides }
      else Except.error Failure.assertion_failure := by
  unfold LinearizeStmt.new TI_ASSERT
  by_cases h : inputs.length = strides.length
  · simp [h]
  · simp [h]

/-- C5: each of the five stack constructors, given a statement `s` as its
`stack` operand, fails with an assertion failure if `s` is not a
`StackAllocaStmt`, and otherwise succeeds with a statement whose `stack` field
is `s` (and whose `v` field, for push and accumulate, is the given operand). -/
theorem stack_constructors_require_stack_alloca (s : Stmt) (v : Ptr Stmt) :
    (StackLoadTopStmt.new (some s) =
        if s.kind = StmtKind.StackAllocaStmt then
          Except.ok { ret_type := VectorType.untyped, stack := some s }
        else Except.error Failure.assertion_failure) ∧
    (StackLoadTopAdjStmt.new (some s) =
        if s.kind = StmtKind.StackAllocaStmt then
          Except.ok { ret_type := VectorType.untyped, stack := some s }
        else Except.error Failure.assertion_failure) ∧
    (StackPopStmt.new (some s) =
        if s.kind = StmtKind.StackAllocaStmt then
          Except.ok { ret_type := VectorType.untyped, stack := some s }
        else Except.error Failure.assertion_failure) ∧
    (StackPushStmt.new (some s) v =
        if s.kind = StmtKind.StackAllocaStmt then
          Except.ok { ret_type := VectorType.untyped, stack := some s, v := v }
        else Except.error Failure.assertion_failure) ∧
    (StackAccAdjointStmt.new (some s) v =
        if s.kind = StmtKind.StackAllocaStmt then
          Except.ok { ret_type := VectorType.untyped, stack := some s, v := v }
        else Except.error Failure.assertion_failure) := by
  unfold StackLoadTopStmt.new StackLoadTopAdjStmt.new StackPopStmt.new
    StackPushStmt.new StackAccAdjointStmt.new assert_is_stack_alloca TI_ASSERT Stmt.is
  by_cases h : s.kind = StmtKind.StackAllocaStmt
  · simp [h]
  · simp [h]

/-- C9: a freshly constructed `OffsetAndExtractBitsStmt` has `simplified` false,
and its `input`, `bit_begin` and `bit_end` fields are the constructor's
arguments. -/
theorem offset_and_extract_bits_new_fields (input : Ptr Stmt)
    (bit_begin bit_end offset : int32) :
    (OffsetAndExtractBitsStmt.new input bit_begin bit_end offset).simplified = false ∧
    (OffsetAndExtractBitsStmt.new input bit_begin bit_end offset).input = input ∧
    (OffsetAndExtractBitsStmt.new input bit_begin bit_end offset).bit_begin = bit_begin ∧
    (OffsetAndExtractBitsStmt.new input bit_begin bit_end offset).bit_end = bit_end :=
  ⟨rfl, rfl, rfl, rfl⟩

/-- C6: for every `StackAllocaStmt`, `entry_size_in_bytes()` is twice
`element_size_in_bytes()` and `size_in_bytes()` is 4 (the 32-bit header) plus
`entry_size_in_bytes() * max_size`, both in `std::size_t` arithmetic, that is
modulo `2 ^ 64`. -/
theorem stack_alloca_entry_and_total_size (size : DataType → Int) (s : StackAllocaStmt) :
    s.entry_size_in_bytes size = (2 * s.element_size_in_bytes size) % 2 ^ SIZE_T_BITS ∧
    s.size_in_bytes size =
      (4 + s.entry_size_in_bytes size * s.max_size) % 2 ^ SIZE_T_BITS := by
  constructor
  · unfold StackAllocaStmt.entry_size_in_bytes
    rw [Nat.mul_comm]
  · unfold StackAllocaStmt.size_in_bytes
    rw [Nat.add_mod_mod]

/-- C7, as stated, fails: the constructor does not assign `ret_type`, which
`element_size_in_bytes()` reads, so the element size of a freshly constructed
statement is the same for `dt = i32` and `dt = i64` and cannot be the byte size
of `dt` (4 and 8) in both cases. -/
theorem fresh_stack_alloca_element_size_ignores_dt :
    ¬ ((StackAllocaStmt.new DataType.i32 16).element_size_in_bytes data_type_size =
          to_size_t (data_type_size DataType.i32) ∧
        (StackAllocaStmt.new DataType.i64 16).element_size_in_bytes data_type_size =
          to_size_t (data_type_size DataType.i64)) := by
  decide

/-- C7, amended: for every `StackAllocaStmt` whose result element type
`ret_type.data_type` equals its declared element type `dt`,
`element_size_in_bytes()` is the byte size of `dt`, the entry size is twice that
size and the total storage is the 4-byte header plus `max_size * 2 * size(dt)`,
in `std::size_t` arithmetic. -/
theorem stack_alloca_layout_of_typed (size : DataType → Int) (s : StackAllocaStmt)
    (h : s.ret_type.data_type = s.dt) :
    s.element_size_in_bytes size = to_size_t (size s.dt) ∧
    s.entry_size_in_bytes size = (2 * to_size_t (size s.dt)) % 2 ^ SIZE_T_BITS ∧
    s.size_in_bytes size =
      (4 + s.max_size * (2 * to_size_t (size s.dt))) % 2 ^ SIZE_T_BITS := by
  have he : s.element_size_in_bytes size = to_size_t (size s.dt) := by
    unfold StackAllocaStmt.element_size_in_bytes
    rw [h]
  refine ⟨he, ?_, ?_⟩
  · unfold StackAllocaStmt.entry_size_in_bytes
    rw [he, Nat.mul_comm]
  · unfold StackAllocaStmt.size_in_bytes StackAllocaStmt.entry_size_in_bytes
    rw [he, Nat.mod_mul_mod, Nat.add_mod_mod, Nat.mul_comm (to_size_t (size s.dt)) 2,
      Nat.mul_comm (2 * to_size_t (size s.dt)) s.max_size]

/-- Witness for C7, amended: `typed_f32_stack` has `ret_type.data_type = dt`,
and the layout the theorem gives for it. -/
theorem stack_alloca_layout_of_typed_witness :
    typed_f32_stack.ret_type.data_type = typed_f32_stack.dt ∧
    (typed_f32_stack.element_size_in_bytes data_type_size =
        to_size_t (data_type_size typed_f32_stack.dt) ∧
      typed_f32_stack.entry_size_in_bytes data_type_size =
        (2 * to_size_t (data_type_size typed_f32_stack.dt)) % 2 ^ SIZE_T_BITS ∧
      typed_f32_stack.size_in_bytes data_type_size =
        (4 + typed_f32_stack.max_size * (2 * to_size_t (data_type_size typed_f32_stack.dt)))
          % 2 ^ SIZE_T_BITS) :=
  ⟨rfl, stack_alloca_layout_of_typed data_type_size typed_f32_stack rfl⟩

/-- C8: for every `OffloadedStmt`, `is_container_statement()` returns what
`has_body()` returns, and it is true exactly for the kinds `serial`,
`range_for` and `struct_for`. -/
theorem is_container_statement_eq_has_body (s : OffloadedStmt) :
    s.is_container_statement = s.has_body ∧
    (s.is_container_statement = true ↔
      (s.task_type = TaskType.serial ∨ s.task_type = TaskType.range_for ∨
        s.task_type = TaskType.struct_for)) := by
  refine ⟨rfl, ?_⟩
  unfold OffloadedStmt.is_container_statement OffloadedStmt.has_body
  cases s.task_type <;> decide

/-- C10, as stated, fails: in the reflected field list of an `SNodeLookupStmt`
the names after `ret_type` are not in the order `snode`, `input_snode`,
`input_index`, `activate`, `global_indices` of the constructor parameters. -/
theorem snode_lookup_fields_not_in_parameter_order :
    ((SNodeLookupStmt.new (some ⟨7⟩) none none true []).fields.map Prod.fst).tail ≠
      ["snode", "input_snode", "input_index", "activate", "global_indices"] := by
  decide

/-- C10, amended: the reflected field list of every `SNodeLookupStmt` starts
with `ret_type` and then lists the members in declaration order, `snode`,
`input_snode`, `input_index`, `global_indices`, `activate`, each with its
value: the index list precedes `activate`, so the order is that of the
constructor parameters with the last two exchanged. -/
theorem snode_lookup_fields_in_declaration_order (s : SNodeLookupStmt) :
    (s.fields.map Prod.fst).head? = some "ret_type" ∧
    (s.fields.map Prod.fst).tail =
      ["snode", "input_snode", "input_index", "global_indices", "activate"] ∧
    (s.fields.map Prod.snd).tail =
      [FieldValue.snode s.snode, FieldValue.stmt s.input_snode,
        FieldValue.stmt s.input_index, FieldValue.stmts s.global_indices,
        FieldValue.bool s.activate] ∧
    (s.fields.map Prod.fst).tail ≠ SNodeLookupStmt.constructor_parameters := by
  refine ⟨rfl, rfl, rfl, ?_⟩
  show ["snode", "input_snode", "input_index", "global_indices", "activate"] ≠
    ["snode", "input_snode", "input_index", "activate", "global_indices"]
  decide

/-- C11: for every non-empty lane list, given as its lane 0, which names the
source statement `src`, and the other lanes `rest`, construction succeeds; the
result width is the number of lanes, and the lanes and the pointer flag are
stored unchanged. Without a second argument the pointer flag is false. -/
theorem element_shuffle_new_stores_lanes (src : Stmt) (lane : int32)
    (rest : List VectorElement) (pointer : Bool) :
    ElementShuffleStmt.new ({ stmt := some src, index := lane } :: rest) pointer =
      Except.ok
        { ret_type :=
            { width := ({ stmt := some src, index := lane } :: rest : List VectorElement).length,
              data_type := src.element_type },
          elements := { stmt := some src, index := lane } :: rest,
          pointer := pointer } ∧
    ElementShuffleStmt.new_default ({ stmt := some src, index := lane } :: rest) =
      Except.ok
        { ret_type :=
            { width := ({ stmt := some src, index := lane } :: rest : List VectorElement).length,
              data_type := src.element_type },
          elements := { stmt := some src, index := lane } :: rest,
          pointer := false } := by
  constructor
  · simp [ElementShuffleStmt.new]
  · simp [ElementShuffleStmt.new_default, ElementShuffleStmt.new]

/-- C12: for every function name, a constructed `InternalFuncStmt` has as result
type one lane of the 32-bit signed integer type, and its `func_name` is the
given name. -/
theorem internal_func_new_fields (func_name : String) :
    (InternalFuncStmt.new func_name).ret_type.width = 1 ∧
    (InternalFuncStmt.new func_name).ret_type.data_type = DataType.i32 ∧
    (InternalFuncStmt.new func_name).func_name = func_name :=
  ⟨rfl, rfl, rfl⟩

/-- C13, as stated, fails: a `StackLoadTopStmt` and a `StackPopStmt` that refer
to a freshly constructed `StackAllocaStmt`, for which no push exists, are
constructed successfully. -/
theorem stack_load_top_and_pop_on_fresh_stack_succeed :
    StackLoadTopStmt.new (some ((StackAllocaStmt.new DataType.f32 16).as_stmt 0)) =
      Except.ok { ret_type := VectorType.untyped,
                  stack := some ((StackAllocaStmt.new DataType.f32 16).as_stmt 0) } ∧
    StackPopStmt.new (some ((StackAllocaStmt.new DataType.f32 16).as_stmt 0)) =
      Except.ok { ret_type := VectorType.untyped,
                  stack := some ((StackAllocaStmt.new DataType.f32 16).as_stmt 0) } :=
  ⟨rfl, rfl⟩

/-- C13, amended: for every `StackAllocaStmt`, whatever its result type, element
type, capacity and instance id, and so also for a freshly allocated one on which
no push has been recorded, constructing a `StackLoadTopStmt` or a `StackPopStmt`
that refers to it succeeds and yields a statement whose `stack` field is that
statement. For every operand statement, construction succeeds exactly when the
operand is a `StackAllocaStmt` and fails with an assertion failure otherwise:
nothing else is checked. Using such a statement, that is executing it as the
spec describes, fails on a stack on which no push has been recorded, and only
on an empty stack; after a push, loading the top returns the pushed value and
popping leaves the content as it was before the push. -/
theorem stack_load_top_and_pop_construction_and_use (s : StackAllocaStmt) (id : Nat)
    (operand : Stmt) (α : Type) [Zero α] (value : α) (c : StackContent α) :
    (StackLoadTopStmt.new (some (s.as_stmt id)) =
        Except.ok { ret_type := VectorType.untyped, stack := some (s.as_stmt id) } ∧
      StackPopStmt.new (some (s.as_stmt id)) =
        Except.ok { ret_type := VectorType.untyped, stack := some (s.as_stmt id) }) ∧
    (StackLoadTopStmt.new (some operand) =
        (if operand.kind = StmtKind.StackAllocaStmt then
          Except.ok { ret_type := VectorType.untyped, stack := some operand }
        else Except.error Failure.assertion_failure) ∧
      StackPopStmt.new (some operand) =
        (if operand.kind = StmtKind.StackAllocaStmt then
          Except.ok { ret_type := VectorType.untyped, stack := some operand }
        else Except.error Failure.assertion_failure)) ∧
    (StackLoadTopStmt.execute (StackContent.fresh : StackContent α) =
        Except.error Failure.assertion_failure ∧
      StackPopStmt.execute (StackContent.fresh : StackContent α) =
        Except.error Failure.assertion_failure) ∧
    ((StackLoadTopStmt.execute c = Except.error Failure.assertion_failure ↔ c = []) ∧
      (StackPopStmt.execute c = Except.error Failure.assertion_failure ↔ c = [])) ∧
    (StackLoadTopStmt.execute (StackPushStmt.execute value c) = Except.ok value ∧
      StackPopStmt.execute (StackPushStmt.execute value c) = Except.ok c) := by
  refine ⟨⟨rfl, rfl⟩, ?_, ⟨rfl, rfl⟩, ?_, ⟨rfl, rfl⟩⟩
  · unfold StackLoadTopStmt.new StackPopStmt.new assert_is_stack_alloca TI_ASSERT Stmt.is
    by_cases h : operand.kind = StmtKind.StackAllocaStmt
    · simp [h]
    · simp [h]
  · cases c with
    | nil => exact ⟨⟨fun _ => rfl, fun _ => rfl⟩, ⟨fun _ => rfl, fun _ => rfl⟩⟩
    | cons top rest =>
      simp [StackLoadTopStmt.execute, StackPopStmt.execute]

/-- C17: the constructor of `OffsetAndExtractBitsStmt` takes `offset` as an
`int`: the stored 64-bit offset is the value of that `int`, so it lies in
`[-2^31, 2^31)`; an `int64` offset passed to it is stored modulo `2 ^ 32`
reinterpreted as signed, which is the offset itself exactly when it lies in
that range, while `IntegerOffsetStmt` stores every `int64` offset unchanged. -/
theorem offset_and_extract_bits_offset_narrowed (input : Ptr Stmt)
    (bit_begin bit_end offset : int32) (wide : int64) :
    (OffsetAndExtractBitsStmt.new input bit_begin bit_end offset).offset.val = offset.val ∧
    (-2147483648 ≤ (OffsetAndExtractBitsStmt.new input bit_begin bit_end offset).offset.val ∧
      (OffsetAndExtractBitsStmt.new input bit_begin bit_end offset).offset.val < 2147483648) ∧
    (OffsetAndExtractBitsStmt.new input bit_begin bit_end wide.to_int32).offset.val =
      (wide.val + 2147483648) % 4294967296 - 2147483648 ∧
    ((OffsetAndExtractBitsStmt.new input bit_begin bit_end wide.to_int32).offset.val = wide.val ↔
      (-2147483648 ≤ wide.val ∧ wide.val < 2147483648)) ∧
    (IntegerOffsetStmt.new input wide).offset = wide := by
  refine ⟨rfl, ⟨offset.lo, offset.hi⟩, rfl, ?_, rfl⟩
  show (wide.val + 2147483648) % 4294967296 - 2147483648 = wide.val ↔ _
  omega

/-- C18: the constructor of `ElementShuffleStmt` reads lane 0 of `elements`: the
lookup is out of bounds exactly when `elements` is empty, and for a non-empty
list whose lane 0 names the source statement `src` the result element type is
the element type of `src`, whatever the other lanes are. -/
theorem element_shuffle_reads_lane_zero (elements : List VectorElement) (pointer : Bool)
    (src : Stmt) (lane : int32) (rest : List VectorElement) :
    (elements[0]? = none ↔ elements = []) ∧
    (ElementShuffleStmt.new elements pointer = Except.error Failure.index_out_of_bounds ↔
      elements = []) ∧
    (∃ s, ElementShuffleStmt.new ({ stmt := some src, index := lane } :: rest) pointer =
        Except.ok s ∧ s.ret_type.data_type = src.element_type) := by
  refine ⟨?_, ?_, ?_⟩
  · cases elements <;> simp
  · cases elements with
    | nil => simp [ElementShuffleStmt.new]
    | cons e r =>
      cases hs : e.stmt <;> simp [ElementShuffleStmt.new, hs]
  · refine ⟨{ ret_type := { width := rest.length + 1, data_type := src.element_type },
              elements := { stmt := some src, index := lane } :: rest,
              pointer := pointer }, ?_, rfl⟩
    simp [ElementShuffleStmt.new]

/-- C14: against the constructors as the spec describes them, constructing an
`OffloadedStmt` of kind `struct_for`, `clear_list`, `listgen` or `gc` with a
null SNode fails, also through the one-argument constructor, which supplies no
SNode; for `serial` and `range_for` construction without an SNode succeeds. -/
theorem offloaded_new_requires_snode (init : OffloadedStmt) (task_type : TaskType) :
    OffloadedStmt.new_without_snode init task_type = OffloadedStmt.new init task_type none ∧
    OffloadedStmt.new init task_type none =
      if task_type = TaskType.serial ∨ task_type = TaskType.range_for then
        Except.ok { init with task_type := task_type, snode := none,
                              body := some { statements := [] } }
      else Except.error Failure.assertion_failure := by
  refine ⟨rfl, ?_⟩
  cases task_type <;> rfl

/-- The accumulation of `LinearizeStmt.denote`, started from `acc`, adds to `acc`
the sum of the products `inputs[i] * strides[i]`. -/
theorem linearize_foldl_eq_sum (value : Ptr Stmt → Int) :
    ∀ (inputs : List (Ptr Stmt)) (strides : List int32)
      (h : inputs.length = strides.length) (acc : Int),
      (List.zip inputs strides).foldl (fun acc p => acc + value p.1 * p.2.val) acc =
        acc + ∑ i : Fin inputs.length,
          value (inputs.get i) * (strides.get (Fin.cast h i)).val := by
  intro inputs
  induction inputs with
  | nil =>
    intro strides h acc
    simp
  | cons a rest ih =>
    intro strides h acc
    cases strides with
    | nil => simp at h
    | cons b srest =>
      have h2 : rest.length = srest.length := by simpa using h
      rw [List.zip_cons_cons, List.foldl_cons, ih srest h2]
      simp only [List.length_cons]
      rw [Fin.sum_univ_succ]
      simp [add_assoc]

/-- C15: for inputs and strides of equal length, construction succeeds and,
against the value the spec gives a `LinearizeStmt`, the statement denotes the
sum over `i` of `inputs[i] * strides[i]`. -/
theorem linearize_denotes_sum (value : Ptr Stmt → Int) (inputs : List (Ptr Stmt))
    (strides : List int32) (h : inputs.length = strides.length) :
    ∃ s, LinearizeStmt.new inputs strides = Except.ok s ∧
      s.denote value =
        ∑ i : Fin inputs.length, value (inputs.get i) * (strides.get (Fin.cast h i)).val := by
  refine ⟨{ ret_type := VectorType.untyped, inputs := inputs, strides := strides }, ?_, ?_⟩
  · simp [LinearizeStmt.new, TI_ASSERT, h]
  · unfold LinearizeStmt.denote
    rw [linearize_foldl_eq_sum value inputs strides h 0, zero_add]

/-- Witness for C15: two dimensions whose inputs both have value 3, with strides
4 and 1. -/
theorem linearize_denotes_sum_witness :
    ([none, none] : List (Ptr Stmt)).length =
      ([⟨4, by decide, by decide⟩, ⟨1, by decide, by decide⟩] : List int32).length ∧
    ∃ s, LinearizeStmt.new [none, none]
        [⟨4, by decide, by decide⟩, ⟨1, by decide, by decide⟩] = Except.ok s ∧
      s.denote (fun _ => 3) = 3 * 4 + (3 * 1 + 0) := by
  refine ⟨rfl, ?_⟩
  obtain ⟨s, hs, hd⟩ := linearize_denotes_sum (fun _ => 3) [none, none]
    [⟨4, by decide, by decide⟩, ⟨1, by decide, by decide⟩] rfl
  exact ⟨s, hs, by rw [hd]; rfl⟩

/-- The mask of `n` low bits is `(1 << n) - 1`. -/
theorem mask_eq_shift_sub_one (n : Nat) : mask n = ((1 <<< n : Nat) : Int) - 1 := by
  induction n with
  | zero => rfl
  | succ k ih =>
    rw [mask, ih, Nat.one_shiftLeft, Nat.one_shiftLeft, pow_succ]
    push_cast
    ring

/-- C16: against the value the spec gives an `OffsetAndExtractBitsStmt`, the
statement denotes
`((input + offset) >> bit_begin) & ((1 << (bit_end - bit_begin)) - 1)`, and
that value does not depend on the `simplified` flag. -/
theorem offset_and_extract_bits_denotes (input : Int) (s : OffsetAndExtractBitsStmt) :
    s.denote input =
      Int.land ((input + s.offset.val) >>> s.bit_begin.val.toNat)
        (((1 <<< (s.bit_end.val - s.bit_begin.val).toNat : Nat) : Int) - 1) ∧
    OffsetAndExtractBitsStmt.denote input { s with simplified := true } =
      OffsetAndExtractBitsStmt.denote input { s with simplified := false } := by
  refine ⟨?_, rfl⟩
  unfold OffsetAndExtractBitsStmt.denote
  rw [mask_eq_shift_sub_one]

end Taichi
